import Mathlib

/-!
Shallow embedding of `graphistician` (`src/networks.py`) — factorized weighted
network distributions: a fixed-sparsity Erdős–Rényi variant and a logistic
eigenmodel variant, each composing an adjacency process with a Gaussian
weight process.  NumPy arrays are embedded as nested lists of reals;
Python ints as `ℤ` at the API boundary and `ℕ` for stored dimensions;
float literals as rationals coerced into `ℝ`.
-/

/-- Error taxonomy of the spec (§7): shape mismatches, invalid parameters
such as a probability outside (0,1), and expectations requested before the
latent state has been set. -/
inductive NetError where
  | InvalidDimension
  | InvalidParameter
  | Uninitialized
  deriving DecidableEq, Repr

/-- Embedding of `np.ones((n, m))`: an n×m matrix of ones. -/
def np_ones (n m : ℕ) : List (List ℝ) :=
  List.replicate n (List.replicate m (1 : ℝ))

/-- Embedding of `c * A` for a scalar `c` and a 2-d array `A`. -/
def scalar_mul_mat (c : ℝ) (A : List (List ℝ)) : List (List ℝ) :=
  A.map (fun r => r.map (fun x => c * x))

/-- Embedding of `np.tile(v[None, None, :], [n, n, 1])`: the B-vector `v`
broadcast to an n×n×B tensor. -/
def np_tile_vec (v : List ℝ) (n : ℕ) : List (List (List ℝ)) :=
  List.replicate n (List.replicate n v)

/-- Embedding of `np.tile(M[None, None, :, :], [n, n, 1, 1])`: the B×B matrix
`M` broadcast to an n×n×B×B tensor. -/
def np_tile_mat (M : List (List ℝ)) (n : ℕ) : List (List (List (List ℝ))) :=
  List.replicate n (List.replicate n M)

/-- Entry `A[i, j]` of a 2-d array (out-of-range reads default to 0,
which the in-range theorems never rely on). -/
def get2 (A : List (List ℝ)) (i j : ℕ) : ℝ :=
  (A.getD i []).getD j 0

/-- Slice `A[i, j, :]` of a 3-d array. -/
def slice3 (A : List (List (List ℝ))) (i j : ℕ) : List ℝ :=
  (A.getD i []).getD j []

/-- Slice `A[i, j, :, :]` of a 4-d array. -/
def slice4 (A : List (List (List (List ℝ)))) (i j : ℕ) : List (List ℝ) :=
  (A.getD i []).getD j []

/-- The shape predicate "A is an n×m array". -/
def shape2 (A : List (List ℝ)) (n m : ℕ) : Prop :=
  A.length = n ∧ ∀ r ∈ A, r.length = m

/-- The shape predicate "A is an n×m×k array". -/
def shape3 (A : List (List (List ℝ))) (n m k : ℕ) : Prop :=
  A.length = n ∧ ∀ P ∈ A, P.length = m ∧ ∀ r ∈ P, r.length = k

/-- The shape predicate "A is an n×m×k×l array". -/
def shape4 (A : List (List (List (List ℝ)))) (n m k l : ℕ) : Prop :=
  A.length = n ∧ ∀ P ∈ A, P.length = m ∧ ∀ Q ∈ P, Q.length = k ∧ ∀ r ∈ Q, r.length = l

lemma getD_replicate {α : Type} (n i : ℕ) (x d : α) (h : i < n) :
    (List.replicate n x).getD i d = x := by
  induction n generalizing i with
  | zero => exact absurd h (Nat.not_lt_zero i)
  | succ n ih =>
    cases i with
    | zero => rfl
    | succ i => exact ih i (Nat.lt_of_succ_lt_succ h)

lemma shape2_replicate (n m : ℕ) (x : ℝ) :
    shape2 (List.replicate n (List.replicate m x)) n m := by
  refine ⟨List.length_replicate n _, ?_⟩
  intro r hr
  rw [List.eq_of_mem_replicate hr]
  exact List.length_replicate m x

/-- Modelled from the spec: the external WeightProcess collaborator
(`internals/weights.py`, absent from the sources).  §4.3: it exposes
`mf_expected_mu() : ℝ^B`, `mf_expected_mumuT() : ℝ^{B×B}`,
`mf_expected_Sigma_inv() : ℝ^{B×B}`, `mf_expected_logdet_Sigma() : ℝ`,
together with its point parameters `mu : ℝ^B` and `sigma : ℝ^{B×B}` (§3),
treated as a black box: an abstract state carrying those quantities with
their shape invariants. -/
structure GaussianWeights where
  B : ℕ
  mu : List ℝ
  sigma : List (List ℝ)
  E_mu : List ℝ
  E_mumuT : List (List ℝ)
  E_Sigma_inv : List (List ℝ)
  E_logdet_Sigma : ℝ
  h_mu : mu.length = B
  h_sigma : shape2 sigma B B
  h_E_mu : E_mu.length = B
  h_E_mumuT : shape2 E_mumuT B B
  h_E_Sigma_inv : shape2 E_Sigma_inv B B

def GaussianWeights.mf_expected_mu (w : GaussianWeights) : List ℝ := w.E_mu

def GaussianWeights.mf_expected_mumuT (w : GaussianWeights) : List (List ℝ) := w.E_mumuT

def GaussianWeights.mf_expected_Sigma_inv (w : GaussianWeights) : List (List ℝ) := w.E_Sigma_inv

def GaussianWeights.mf_expected_logdet_Sigma (w : GaussianWeights) : ℝ := w.E_logdet_Sigma

/-- Modelled from the spec: `GaussianWeights(B, ...)` construction.  The
conjugate-update internals are out of scope (§1); the spec leaves the initial
numeric state unspecified, so the model uses a canonical zero state of the
contracted shapes. -/
def GaussianWeights.init (B : ℕ) : GaussianWeights :=
  { B := B
    mu := List.replicate B 0
    sigma := List.replicate B (List.replicate B 0)
    E_mu := List.replicate B 0
    E_mumuT := List.replicate B (List.replicate B 0)
    E_Sigma_inv := List.replicate B (List.replicate B 0)
    E_logdet_Sigma := 0
    h_mu := List.length_replicate B 0
    h_sigma := shape2_replicate B B 0
    h_E_mu := List.length_replicate B 0
    h_E_mumuT := shape2_replicate B B 0
    h_E_Sigma_inv := shape2_replicate B B 0 }

/-- Modelled from the spec: the FixedSparsityEdges adjacency process
(`internals/adjacency.py`, absent from the sources).  §4.2: it holds the
homogeneous Bernoulli probability `p`. -/
structure BernoulliEdges where
  p : ℝ

/-- Modelled from the spec: `mf_expected_log_p()` of FixedSparsityEdges is
the closed-form scalar `log p` (§4.2). -/
noncomputable def BernoulliEdges.mf_expected_log_p (b : BernoulliEdges) : ℝ :=
  Real.log b.p

/-- Modelled from the spec: `mf_expected_log_notp()` of FixedSparsityEdges is
the closed-form scalar `log (1 - p)` (§4.2). -/
noncomputable def BernoulliEdges.mf_expected_log_notp (b : BernoulliEdges) : ℝ :=
  Real.log (1 - b.p)

/-- State of `GaussianErdosRenyiFixedSparsity` (src/networks.py, lines 10-19):
dimensions N and B, the stored sparsity `p`, and the two sub-processes.
`h_wB` records that the weight process is built with this distribution's B. -/
structure GaussianErdosRenyiFixedSparsity where
  N : ℕ
  B : ℕ
  p : ℝ
  adjacency_dist : BernoulliEdges
  weight_dist : GaussianWeights
  h_wB : weight_dist.B = B

/-- Constructor `GaussianErdosRenyiFixedSparsity(N, B, p=0.5, ...)`
(src/networks.py, lines 12-19).  The validation is modelled from the spec:
the base-class `__init__` (`abstractions.py`) and `BernoulliEdges.__init__`
are absent from the sources, and §4.4/§4.2 state that construction fails with
`InvalidDimension` unless N > 0 and B > 0 (checked first, by `super().__init__`),
and FixedSparsityEdges fails with `InvalidParameter` unless p ∈ (0,1). -/
def GaussianErdosRenyiFixedSparsity.make (N B : ℤ) (p : ℚ := 1/2) :
    Except NetError GaussianErdosRenyiFixedSparsity :=
  if 0 < N ∧ 0 < B then
    if 0 < p ∧ p < 1 then
      .ok { N := N.toNat
            B := B.toNat
            p := (p : ℝ)
            adjacency_dist := { p := (p : ℝ) }
            weight_dist := GaussianWeights.init B.toNat
            h_wB := rfl }
    else .error .InvalidParameter
  else .error .InvalidDimension

/-- Accessor `P` (src/networks.py, lines 28-30):
`self.adjacency_dist.p * np.ones((self.N, self.N))`. -/
def GaussianErdosRenyiFixedSparsity.P (d : GaussianErdosRenyiFixedSparsity) :
    List (List ℝ) :=
  scalar_mul_mat d.adjacency_dist.p (np_ones d.N d.N)

/-- Accessor `Mu` (src/networks.py, lines 32-39):
`np.tile(self.weight_dist.mu[None, None, :], [self.N, self.N, 1])`. -/
def GaussianErdosRenyiFixedSparsity.Mu (d : GaussianErdosRenyiFixedSparsity) :
    List (List (List ℝ)) :=
  np_tile_vec d.weight_dist.mu d.N

/-- Accessor `Sigma` (src/networks.py, lines 41-48):
`np.tile(self.weight_dist.sigma[None, None, :, :], [self.N, self.N, 1, 1])`. -/
def GaussianErdosRenyiFixedSparsity.Sigma (d : GaussianErdosRenyiFixedSparsity) :
    List (List (List (List ℝ))) :=
  np_tile_mat d.weight_dist.sigma d.N

/-- Method `mf_expected_log_p` (src/networks.py, lines 51-52):
`self.adjacency_dist.mf_expected_log_p() * np.ones((self.N, self.N))`. -/
noncomputable def GaussianErdosRenyiFixedSparsity.mf_expected_log_p
    (d : GaussianErdosRenyiFixedSparsity) : List (List ℝ) :=
  scalar_mul_mat d.adjacency_dist.mf_expected_log_p (np_ones d.N d.N)

/-- Method `mf_expected_log_notp` (src/networks.py, lines 54-55). -/
noncomputable def GaussianErdosRenyiFixedSparsity.mf_expected_log_notp
    (d : GaussianErdosRenyiFixedSparsity) : List (List ℝ) :=
  scalar_mul_mat d.adjacency_dist.mf_expected_log_notp (np_ones d.N d.N)

/-- Method `mf_expected_mu` (src/networks.py, lines 57-59). -/
def GaussianErdosRenyiFixedSparsity.mf_expected_mu
    (d : GaussianErdosRenyiFixedSparsity) : List (List (List ℝ)) :=
  np_tile_vec d.weight_dist.mf_expected_mu d.N

/-- Method `mf_expected_mumuT` (src/networks.py, lines 61-63). -/
def GaussianErdosRenyiFixedSparsity.mf_expected_mumuT
    (d : GaussianErdosRenyiFixedSparsity) : List (List (List (List ℝ))) :=
  np_tile_mat d.weight_dist.mf_expected_mumuT d.N

/-- Method `mf_expected_Sigma_inv` (src/networks.py, lines 65-67). -/
def GaussianErdosRenyiFixedSparsity.mf_expected_Sigma_inv
    (d : GaussianErdosRenyiFixedSparsity) : List (List (List (List ℝ))) :=
  np_tile_mat d.weight_dist.mf_expected_Sigma_inv d.N

/-- Method `mf_expected_logdet_Sigma` (src/networks.py, lines 69-71):
`E_logdet_Sigma * np.ones((self.N, self.N))`. -/
def GaussianErdosRenyiFixedSparsity.mf_expected_logdet_Sigma
    (d : GaussianErdosRenyiFixedSparsity) : List (List ℝ) :=
  scalar_mul_mat d.weight_dist.mf_expected_logdet_Sigma (np_ones d.N d.N)

/-- The standard logistic sigmoid `1/(1+exp(-x))` (spec §4.1). -/
noncomputable def sigmoid (x : ℝ) : ℝ :=
  1 / (1 + Real.exp (-x))

/-- Dot product of two embedding vectors. -/
def dotR (u v : List ℝ) : ℝ :=
  (List.zipWith (fun a b => a * b) u v).sum

/-- Modelled from the spec: the LatentEmbeddingStore / logistic eigenmodel
adjacency process (`internals/eigenmodel.py`, absent from the sources).
§3/§4.1: it holds N, D, the sparsity-related prior parameter `p`, the node
embeddings `F` (N×D), the global bias `mu0` and the per-node random effects
`lmbda`; the latter three are unset until the caller supplies them
(§4.2 primary failure policy: operations on unset state fail with
`Uninitialized`). -/
structure LogisticEigenmodel where
  N : ℕ
  D : ℕ
  p : ℚ
  F : Option (List (List ℝ))
  mu0 : Option ℝ
  lmbda : Option (List ℝ)

/-- Modelled from the spec: `LogisticEigenmodel(N, D, p=p, ...)` construction
with no embeddings, bias or random effects supplied: the latent state is
unset. -/
def LogisticEigenmodel.init (N D : ℕ) (p : ℚ) : LogisticEigenmodel :=
  { N := N, D := D, p := p, F := none, mu0 := none, lmbda := none }

/-- Modelled from the spec: `logit(i, j) = μ0 + λ_i + λ_j + f_i · f_j`
(§4.1), as a total function of the already-extracted latent state. -/
def eigen_logit (mu0 : ℝ) (lam : List ℝ) (F : List (List ℝ)) (i j : ℕ) : ℝ :=
  mu0 + lam.getD i 0 + lam.getD j 0 + dotR (F.getD i []) (F.getD j [])

/-- Modelled from the spec: the N×N edge probability matrix
`P[i,j] = σ(logit(i,j))` (§3, §4.2). -/
noncomputable def eigen_P_matrix (n : ℕ) (mu0 : ℝ) (lam : List ℝ)
    (F : List (List ℝ)) : List (List ℝ) :=
  (List.range n).map (fun i =>
    (List.range n).map (fun j => sigmoid (eigen_logit mu0 lam F i j)))

/-- Modelled from the spec: the plug-in approximation
`mf_expected_log_p()[i,j] = log σ(logit(i,j))` (§4.2, §8). -/
noncomputable def eigen_log_p_matrix (n : ℕ) (mu0 : ℝ) (lam : List ℝ)
    (F : List (List ℝ)) : List (List ℝ) :=
  (List.range n).map (fun i =>
    (List.range n).map (fun j => Real.log (sigmoid (eigen_logit mu0 lam F i j))))

/-- Modelled from the spec: the plug-in approximation
`mf_expected_log_notp()[i,j] = log σ(-logit(i,j))` (§4.2, §8). -/
noncomputable def eigen_log_notp_matrix (n : ℕ) (mu0 : ℝ) (lam : List ℝ)
    (F : List (List ℝ)) : List (List ℝ) :=
  (List.range n).map (fun i =>
    (List.range n).map (fun j => Real.log (sigmoid (-eigen_logit mu0 lam F i j))))

/-- Modelled from the spec: `LogisticEigenmodel.P` evaluates the edge
probability matrix from the current store, failing with `Uninitialized`
when `F`, `μ0` or `λ` are unset (§4.2). -/
noncomputable def LogisticEigenmodel.P (m : LogisticEigenmodel) :
    Except NetError (List (List ℝ)) :=
  match m.F, m.mu0, m.lmbda with
  | some F, some mu0, some lam => .ok (eigen_P_matrix m.N mu0 lam F)
  | _, _, _ => .error .Uninitialized

/-- Modelled from the spec: `LogisticEigenmodel.mf_expected_log_p()`,
failing with `Uninitialized` when `F`, `μ0` or `λ` are unset (§4.2). -/
noncomputable def LogisticEigenmodel.mf_expected_log_p (m : LogisticEigenmodel) :
    Except NetError (List (List ℝ)) :=
  match m.F, m.mu0, m.lmbda with
  | some F, some mu0, some lam => .ok (eigen_log_p_matrix m.N mu0 lam F)
  | _, _, _ => .error .Uninitialized

/-- Modelled from the spec: `LogisticEigenmodel.mf_expected_log_notp()`,
failing with `Uninitialized` when `F`, `μ0` or `λ` are unset (§4.2). -/
noncomputable def LogisticEigenmodel.mf_expected_log_notp (m : LogisticEigenmodel) :
    Except NetError (List (List ℝ)) :=
  match m.F, m.mu0, m.lmbda with
  | some F, some mu0, some lam => .ok (eigen_log_notp_matrix m.N mu0 lam F)
  | _, _, _ => .error .Uninitialized

/-- State of `GaussianWeightedEigenmodel` (src/networks.py, lines 91-111):
dimensions N, B, D and the two sub-processes; `h_wB` and `h_aN` record that
the sub-processes are built with this distribution's B and N. -/
structure GaussianWeightedEigenmodel where
  N : ℕ
  B : ℕ
  D : ℕ
  adjacency_dist : LogisticEigenmodel
  weight_dist : GaussianWeights
  h_wB : weight_dist.B = B
  h_aN : adjacency_dist.N = N

/-- Constructor `GaussianWeightedEigenmodel(N, B, D=2, p=0.5, ...)`
(src/networks.py, lines 94-111).  The dimension validation is modelled from
the spec: the base-class `__init__` (`abstractions.py`) is absent from the
sources, and §4.4 states construction fails with `InvalidDimension` unless
N > 0, B > 0 and D > 0. -/
def GaussianWeightedEigenmodel.make (N B : ℤ) (D : ℤ := 2) (p : ℚ := 1/2) :
    Except NetError GaussianWeightedEigenmodel :=
  if 0 < N ∧ 0 < B ∧ 0 < D then
    .ok { N := N.toNat
          B := B.toNat
          D := D.toNat
          adjacency_dist := LogisticEigenmodel.init N.toNat D.toNat p
          weight_dist := GaussianWeights.init B.toNat
          h_wB := rfl
          h_aN := rfl }
  else .error .InvalidDimension

/-- Accessor `P` of the eigenmodel variant (src/networks.py, lines 126-128):
delegates to `self.adjacency_dist.P`. -/
noncomputable def GaussianWeightedEigenmodel.P (m : GaussianWeightedEigenmodel) :
    Except NetError (List (List ℝ)) :=
  m.adjacency_dist.P

/-- Accessor `Mu` (src/networks.py, lines 130-137): same tiling as the
fixed-sparsity variant. -/
def GaussianWeightedEigenmodel.Mu (m : GaussianWeightedEigenmodel) :
    List (List (List ℝ)) :=
  np_tile_vec m.weight_dist.mu m.N

/-- Accessor `Sigma` (src/networks.py, lines 139-146). -/
def GaussianWeightedEigenmodel.Sigma (m : GaussianWeightedEigenmodel) :
    List (List (List (List ℝ))) :=
  np_tile_mat m.weight_dist.sigma m.N

/-- Method `mf_expected_log_p` (src/networks.py, lines 165-166): delegates
directly to the adjacency process. -/
noncomputable def GaussianWeightedEigenmodel.mf_expected_log_p
    (m : GaussianWeightedEigenmodel) : Except NetError (List (List ℝ)) :=
  m.adjacency_dist.mf_expected_log_p

/-- Method `mf_expected_log_notp` (src/networks.py, lines 168-169). -/
noncomputable def GaussianWeightedEigenmodel.mf_expected_log_notp
    (m : GaussianWeightedEigenmodel) : Except NetError (List (List ℝ)) :=
  m.adjacency_dist.mf_expected_log_notp

/-- Method `mf_expected_mu` (src/networks.py, lines 171-173). -/
def GaussianWeightedEigenmodel.mf_expected_mu
    (m : GaussianWeightedEigenmodel) : List (List (List ℝ)) :=
  np_tile_vec m.weight_dist.mf_expected_mu m.N

/-- Method `mf_expected_mumuT` (src/networks.py, lines 175-177). -/
def GaussianWeightedEigenmodel.mf_expected_mumuT
    (m : GaussianWeightedEigenmodel) : List (List (List (List ℝ))) :=
  np_tile_mat m.weight_dist.mf_expected_mumuT m.N

/-- Method `mf_expected_Sigma_inv` (src/networks.py, lines 179-181). -/
def GaussianWeightedEigenmodel.mf_expected_Sigma_inv
    (m : GaussianWeightedEigenmodel) : List (List (List (List ℝ))) :=
  np_tile_mat m.weight_dist.mf_expected_Sigma_inv m.N

/-- Method `mf_expected_logdet_Sigma` (src/networks.py, lines 183-185). -/
def GaussianWeightedEigenmodel.mf_expected_logdet_Sigma
    (m : GaussianWeightedEigenmodel) : List (List ℝ) :=
  scalar_mul_mat m.weight_dist.mf_expected_logdet_Sigma (np_ones m.N m.N)

/-- Result value of a read accessor: a dense tensor of the appropriate rank,
or an error (the eigenmodel adjacency accessors can fail). -/
inductive TensorResult where
  | t2 : List (List ℝ) → TensorResult
  | t3 : List (List (List ℝ)) → TensorResult
  | t4 : List (List (List (List ℝ))) → TensorResult
  | fail : NetError → TensorResult

/-- The nine read accessors of a weighted network distribution (spec §6). -/
inductive Accessor where
  | P
  | Mu
  | Sigma
  | log_p
  | log_notp
  | mu
  | mumuT
  | Sigma_inv
  | logdet_Sigma
  deriving DecidableEq

/-- Running one read accessor of the fixed-sparsity variant as a state
transformer: the returned state is the state the Python method leaves behind.
Each method body (src/networks.py, lines 28-71) contains no assignment to
`self` or to either sub-process, so each branch returns the value computed
from the current state together with that state. -/
noncomputable def GaussianErdosRenyiFixedSparsity.read
    (d : GaussianErdosRenyiFixedSparsity) (a : Accessor) :
    TensorResult × GaussianErdosRenyiFixedSparsity :=
  match a with
  | .P => (.t2 d.P, d)
  | .Mu => (.t3 d.Mu, d)
  | .Sigma => (.t4 d.Sigma, d)
  | .log_p => (.t2 d.mf_expected_log_p, d)
  | .log_notp => (.t2 d.mf_expected_log_notp, d)
  | .mu => (.t3 d.mf_expected_mu, d)
  | .mumuT => (.t4 d.mf_expected_mumuT, d)
  | .Sigma_inv => (.t4 d.mf_expected_Sigma_inv, d)
  | .logdet_Sigma => (.t2 d.mf_expected_logdet_Sigma, d)

/-- Wrapping of an eigenmodel adjacency result into a TensorResult. -/
def wrapExcept (r : Except NetError (List (List ℝ))) : TensorResult :=
  match r with
  | .ok A => .t2 A
  | .error e => .fail e

/-- Running one read accessor of the eigenmodel variant as a state
transformer (src/networks.py, lines 126-185): no method body assigns to
`self` or to either sub-process. -/
noncomputable def GaussianWeightedEigenmodel.read
    (m : GaussianWeightedEigenmodel) (a : Accessor) :
    TensorResult × GaussianWeightedEigenmodel :=
  match a with
  | .P => (wrapExcept m.P, m)
  | .Mu => (.t3 m.Mu, m)
  | .Sigma => (.t4 m.Sigma, m)
  | .log_p => (wrapExcept m.mf_expected_log_p, m)
  | .log_notp => (wrapExcept m.mf_expected_log_notp, m)
  | .mu => (.t3 m.mf_expected_mu, m)
  | .mumuT => (.t4 m.mf_expected_mumuT, m)
  | .Sigma_inv => (.t4 m.mf_expected_Sigma_inv, m)
  | .logdet_Sigma => (.t2 m.mf_expected_logdet_Sigma, m)

lemma slice3_tile_vec (v : List ℝ) (n i j : ℕ) (hi : i < n) (hj : j < n) :
    slice3 (np_tile_vec v n) i j = v := by
  unfold slice3 np_tile_vec
  rw [getD_replicate n i (List.replicate n v) [] hi, getD_replicate n j v [] hj]

lemma slice4_tile_mat (M : List (List ℝ)) (n i j : ℕ) (hi : i < n) (hj : j < n) :
    slice4 (np_tile_mat M n) i j = M := by
  unfold slice4 np_tile_mat
  rw [getD_replicate n i (List.replicate n M) [] hi, getD_replicate n j M [] hj]

lemma get2_smul_ones (c : ℝ) (n m i j : ℕ) (hi : i < n) (hj : j < m) :
    get2 (scalar_mul_mat c (np_ones n m)) i j = c := by
  unfold get2 scalar_mul_mat np_ones
  rw [List.map_replicate, List.map_replicate,
    getD_replicate n i (List.replicate m (c * 1)) [] hi,
    getD_replicate m j (c * 1) 0 hj, mul_one]

lemma shape2_smul_ones (c : ℝ) (n m : ℕ) :
    shape2 (scalar_mul_mat c (np_ones n m)) n m := by
  unfold scalar_mul_mat np_ones
  rw [List.map_replicate, List.map_replicate]
  exact shape2_replicate n m (c * 1)

lemma shape3_tile_vec (v : List ℝ) (n b : ℕ) (hv : v.length = b) :
    shape3 (np_tile_vec v n) n n b := by
  refine ⟨List.length_replicate _ _, ?_⟩
  intro P hP
  rw [List.eq_of_mem_replicate hP]
  refine ⟨List.length_replicate _ _, ?_⟩
  intro r hr
  rw [List.eq_of_mem_replicate hr]
  exact hv

lemma shape4_tile_mat (M : List (List ℝ)) (n b c : ℕ) (hM : shape2 M b c) :
    shape4 (np_tile_mat M n) n n b c := by
  refine ⟨List.length_replicate _ _, ?_⟩
  intro P hP
  rw [List.eq_of_mem_replicate hP]
  refine ⟨List.length_replicate _ _, ?_⟩
  intro Q hQ
  rw [List.eq_of_mem_replicate hQ]
  exact ⟨hM.1, hM.2⟩

lemma shape2_range_map (n : ℕ) (f : ℕ → ℕ → ℝ) :
    shape2 ((List.range n).map fun i => (List.range n).map fun j => f i j) n n := by
  constructor
  · rw [List.length_map, List.length_range]
  · intro r hr
    rw [List.mem_map] at hr
    obtain ⟨i, _, rfl⟩ := hr
    rw [List.length_map, List.length_range]

/-- Concrete fixed-sparsity state: the value `GaussianErdosRenyiFixedSparsity.make 1 1`
produces (N = B = 1, default p = 1/2). -/
def sampleFixed : GaussianErdosRenyiFixedSparsity :=
  { N := 1
    B := 1
    p := ((1/2 : ℚ) : ℝ)
    adjacency_dist := { p := ((1/2 : ℚ) : ℝ) }
    weight_dist := GaussianWeights.init 1
    h_wB := rfl }

/-- Concrete eigenmodel state: the value `GaussianWeightedEigenmodel.make 1 1 1`
produces (fresh latent state, default p = 1/2). -/
def sampleEigen : GaussianWeightedEigenmodel :=
  { N := 1
    B := 1
    D := 1
    adjacency_dist := LogisticEigenmodel.init 1 1 (1/2)
    weight_dist := GaussianWeights.init 1
    h_wB := rfl
    h_aN := rfl }

/-- Concrete eigenmodel state whose latent variables have been set: one node,
embedding `[[0]]`, bias 0, random effect `[0]`. -/
def sampleEigenSet : GaussianWeightedEigenmodel :=
  { N := 1
    B := 1
    D := 1
    adjacency_dist := { N := 1, D := 1, p := 1/2, F := some [[0]], mu0 := some 0, lmbda := some [0] }
    weight_dist := GaussianWeights.init 1
    h_wB := rfl
    h_aN := rfl }

/-- Concrete eigenmodel state: the value `GaussianWeightedEigenmodel.make 1 1`
produces, with both defaults taken (D = 2, p = 1/2). -/
def sampleEigenDefaults : GaussianWeightedEigenmodel :=
  { N := 1
    B := 1
    D := 2
    adjacency_dist := LogisticEigenmodel.init 1 2 (1/2)
    weight_dist := GaussianWeights.init 1
    h_wB := rfl
    h_aN := rfl }

lemma make_fixed_default : GaussianErdosRenyiFixedSparsity.make 1 1 = .ok sampleFixed := by
  unfold GaussianErdosRenyiFixedSparsity.make
  rw [if_pos (show (0:ℤ) < 1 ∧ (0:ℤ) < 1 by norm_num),
      if_pos (show 0 < (1/2:ℚ) ∧ (1/2:ℚ) < 1 by norm_num)]
  rfl

lemma make_eigen_default : GaussianWeightedEigenmodel.make 1 1 1 = .ok sampleEigen := rfl

/-- Claim C1: for every valid p ∈ (0,1) and every N > 0 — i.e. whenever
construction succeeds — the fixed-sparsity distribution's
`mf_expected_log_p()` is an N×N matrix whose every entry equals `log p`,
and `mf_expected_log_notp()` is an N×N matrix whose every entry equals
`log (1-p)`. -/
theorem fixed_log_expectation_entries (N B : ℤ) (p : ℚ)
    (d : GaussianErdosRenyiFixedSparsity)
    (hmk : GaussianErdosRenyiFixedSparsity.make N B p = .ok d)
    (i j : ℕ) (hi : i < d.N) (hj : j < d.N) :
    get2 d.mf_expected_log_p i j = Real.log (p : ℝ) ∧
    get2 d.mf_expected_log_notp i j = Real.log (1 - (p : ℝ)) ∧
    shape2 d.mf_expected_log_p d.N d.N ∧
    shape2 d.mf_expected_log_notp d.N d.N := by
  unfold GaussianErdosRenyiFixedSparsity.make at hmk
  split_ifs at hmk with h1 h2
  rw [Except.ok.injEq] at hmk
  subst hmk
  exact ⟨get2_smul_ones _ _ _ _ _ hi hj, get2_smul_ones _ _ _ _ _ hi hj,
    shape2_smul_ones _ _ _, shape2_smul_ones _ _ _⟩

/-- Witness for C1 at N = B = 1, p = 1/2, entry (0,0). -/
theorem fixed_log_expectation_entries_witness :
    (0 : ℕ) < sampleFixed.N ∧
    get2 sampleFixed.mf_expected_log_p 0 0 = Real.log ((1/2 : ℚ) : ℝ) ∧
    get2 sampleFixed.mf_expected_log_notp 0 0 = Real.log (1 - ((1/2 : ℚ) : ℝ)) := by
  have h := fixed_log_expectation_entries 1 1 (1/2) sampleFixed make_fixed_default
    0 0 (by decide) (by decide)
  exact ⟨by decide, h.1, h.2.1⟩

/-- Claim C2: for both distribution variants, the weight-side expectation
tensors are node-pair-invariant: every slice `[i,j,:]` (resp. `[i,j,:,:]`,
resp. entry `[i,j]`) of `Mu`, `mf_expected_mu`, `mf_expected_mumuT`,
`mf_expected_Sigma_inv` and `mf_expected_logdet_Sigma` equals the weight
process's corresponding current value, hence any two slices at index pairs
(i,j) and (i',j') are equal. -/
theorem tiling_node_pair_invariance
    (d : GaussianErdosRenyiFixedSparsity) (m : GaussianWeightedEigenmodel)
    (i j i' j' : ℕ) (hi : i < d.N) (hj : j < d.N) (hi' : i' < d.N) (hj' : j' < d.N)
    (k l k' l' : ℕ) (hk : k < m.N) (hl : l < m.N) (hk' : k' < m.N) (hl' : l' < m.N) :
    (slice3 d.Mu i j = d.weight_dist.mu ∧ slice3 d.Mu i' j' = d.weight_dist.mu) ∧
    (slice3 d.mf_expected_mu i j = d.weight_dist.mf_expected_mu ∧
      slice3 d.mf_expected_mu i' j' = d.weight_dist.mf_expected_mu) ∧
    (slice4 d.mf_expected_mumuT i j = d.weight_dist.mf_expected_mumuT ∧
      slice4 d.mf_expected_mumuT i' j' = d.weight_dist.mf_expected_mumuT) ∧
    (slice4 d.mf_expected_Sigma_inv i j = d.weight_dist.mf_expected_Sigma_inv ∧
      slice4 d.mf_expected_Sigma_inv i' j' = d.weight_dist.mf_expected_Sigma_inv) ∧
    (get2 d.mf_expected_logdet_Sigma i j = d.weight_dist.mf_expected_logdet_Sigma ∧
      get2 d.mf_expected_logdet_Sigma i' j' = d.weight_dist.mf_expected_logdet_Sigma) ∧
    (slice3 m.Mu k l = m.weight_dist.mu ∧ slice3 m.Mu k' l' = m.weight_dist.mu) ∧
    (slice3 m.mf_expected_mu k l = m.weight_dist.mf_expected_mu ∧
      slice3 m.mf_expected_mu k' l' = m.weight_dist.mf_expected_mu) ∧
    (slice4 m.mf_expected_mumuT k l = m.weight_dist.mf_expected_mumuT ∧
      slice4 m.mf_expected_mumuT k' l' = m.weight_dist.mf_expected_mumuT) ∧
    (slice4 m.mf_expected_Sigma_inv k l = m.weight_dist.mf_expected_Sigma_inv ∧
      slice4 m.mf_expected_Sigma_inv k' l' = m.weight_dist.mf_expected_Sigma_inv) ∧
    (get2 m.mf_expected_logdet_Sigma k l = m.weight_dist.mf_expected_logdet_Sigma ∧
      get2 m.mf_expected_logdet_Sigma k' l' = m.weight_dist.mf_expected_logdet_Sigma) := by
  exact ⟨⟨slice3_tile_vec _ _ _ _ hi hj, slice3_tile_vec _ _ _ _ hi' hj'⟩,
    ⟨slice3_tile_vec _ _ _ _ hi hj, slice3_tile_vec _ _ _ _ hi' hj'⟩,
    ⟨slice4_tile_mat _ _ _ _ hi hj, slice4_tile_mat _ _ _ _ hi' hj'⟩,
    ⟨slice4_tile_mat _ _ _ _ hi hj, slice4_tile_mat _ _ _ _ hi' hj'⟩,
    ⟨get2_smul_ones _ _ _ _ _ hi hj, get2_smul_ones _ _ _ _ _ hi' hj'⟩,
    ⟨slice3_tile_vec _ _ _ _ hk hl, slice3_tile_vec _ _ _ _ hk' hl'⟩,
    ⟨slice3_tile_vec _ _ _ _ hk hl, slice3_tile_vec _ _ _ _ hk' hl'⟩,
    ⟨slice4_tile_mat _ _ _ _ hk hl, slice4_tile_mat _ _ _ _ hk' hl'⟩,
    ⟨slice4_tile_mat _ _ _ _ hk hl, slice4_tile_mat _ _ _ _ hk' hl'⟩,
    ⟨get2_smul_ones _ _ _ _ _ hk hl, get2_smul_ones _ _ _ _ _ hk' hl'⟩⟩

/-- Witness for C2 at both sample distributions, all indices 0. -/
theorem tiling_node_pair_invariance_witness :
    (0 : ℕ) < sampleFixed.N ∧ (0 : ℕ) < sampleEigen.N ∧
    slice3 sampleFixed.mf_expected_mu 0 0 = sampleFixed.weight_dist.mf_expected_mu ∧
    slice3 sampleEigen.mf_expected_mu 0 0 = sampleEigen.weight_dist.mf_expected_mu ∧
    get2 sampleFixed.mf_expected_logdet_Sigma 0 0
      = sampleFixed.weight_dist.mf_expected_logdet_Sigma := by
  have h := tiling_node_pair_invariance sampleFixed sampleEigen 0 0 0 0
    (by decide) (by decide) (by decide) (by decide)
    0 0 0 0 (by decide) (by decide) (by decide) (by decide)
  exact ⟨by decide, by decide, h.2.1.1, h.2.2.2.2.2.2.1.1, h.2.2.2.2.1.1⟩

/-- Claim C3: the fixed-sparsity accessor `P` returns the constant N×N matrix
with every entry equal to the construction parameter p; in particular,
constructing with N = 3, B = 2, p = 0.5 gives a 3×3 matrix of all 0.5. -/
theorem fixed_P_constant (N B : ℤ) (p : ℚ)
    (d : GaussianErdosRenyiFixedSparsity)
    (hmk : GaussianErdosRenyiFixedSparsity.make N B p = .ok d)
    (i j : ℕ) (hi : i < d.N) (hj : j < d.N) :
    get2 d.P i j = (p : ℝ) ∧ shape2 d.P d.N d.N ∧
    (GaussianErdosRenyiFixedSparsity.make 3 2 (1/2)).map
        GaussianErdosRenyiFixedSparsity.P
      = .ok (List.replicate 3 (List.replicate 3 (0.5 : ℝ))) := by
  unfold GaussianErdosRenyiFixedSparsity.make at hmk
  split_ifs at hmk with h1 h2
  rw [Except.ok.injEq] at hmk
  subst hmk
  refine ⟨get2_smul_ones _ _ _ _ _ hi hj, shape2_smul_ones _ _ _, ?_⟩
  unfold GaussianErdosRenyiFixedSparsity.make
  rw [if_pos (show (0:ℤ) < 3 ∧ (0:ℤ) < 2 by norm_num),
      if_pos (show 0 < (1/2:ℚ) ∧ (1/2:ℚ) < 1 by norm_num)]
  show Except.ok (GaussianErdosRenyiFixedSparsity.P _) = _
  unfold GaussianErdosRenyiFixedSparsity.P scalar_mul_mat np_ones
  rw [List.map_replicate, List.map_replicate,
    show ((1/2 : ℚ) : ℝ) * 1 = (0.5 : ℝ) by norm_num]
  rfl

/-- Witness for C3 at N = B = 1, p = 1/2, entry (0,0). -/
theorem fixed_P_constant_witness :
    (0 : ℕ) < sampleFixed.N ∧
    get2 sampleFixed.P 0 0 = ((1/2 : ℚ) : ℝ) := by
  have h := fixed_P_constant 1 1 (1/2) sampleFixed make_fixed_default
    0 0 (by decide) (by decide)
  exact ⟨by decide, h.1⟩

/-- Claim C4: for both variants, the accessors satisfy the shape contract:
`Mu` and `mf_expected_mu` are N×N×B; `Sigma`, `mf_expected_mumuT` and
`mf_expected_Sigma_inv` are N×N×B×B; `P`, `mf_expected_log_p`,
`mf_expected_log_notp` and `mf_expected_logdet_Sigma` are N×N (for the
eigenmodel's adjacency-side accessors, whenever they return a matrix). -/
theorem accessor_shape_contract
    (d : GaussianErdosRenyiFixedSparsity) (m : GaussianWeightedEigenmodel)
    (Ap Alp Alnp : List (List ℝ)) :
    shape3 d.Mu d.N d.N d.B ∧
    shape3 d.mf_expected_mu d.N d.N d.B ∧
    shape4 d.Sigma d.N d.N d.B d.B ∧
    shape4 d.mf_expected_mumuT d.N d.N d.B d.B ∧
    shape4 d.mf_expected_Sigma_inv d.N d.N d.B d.B ∧
    shape2 d.P d.N d.N ∧
    shape2 d.mf_expected_log_p d.N d.N ∧
    shape2 d.mf_expected_log_notp d.N d.N ∧
    shape2 d.mf_expected_logdet_Sigma d.N d.N ∧
    shape3 m.Mu m.N m.N m.B ∧
    shape3 m.mf_expected_mu m.N m.N m.B ∧
    shape4 m.Sigma m.N m.N m.B m.B ∧
    shape4 m.mf_expected_mumuT m.N m.N m.B m.B ∧
    shape4 m.mf_expected_Sigma_inv m.N m.N m.B m.B ∧
    shape2 m.mf_expected_logdet_Sigma m.N m.N ∧
    (m.P = .ok Ap → shape2 Ap m.N m.N) ∧
    (m.mf_expected_log_p = .ok Alp → shape2 Alp m.N m.N) ∧
    (m.mf_expected_log_notp = .ok Alnp → shape2 Alnp m.N m.N) := by
  refine ⟨shape3_tile_vec _ _ _ (d.h_wB ▸ d.weight_dist.h_mu),
    shape3_tile_vec _ _ _ (d.h_wB ▸ d.weight_dist.h_E_mu),
    shape4_tile_mat _ _ _ _ (d.h_wB ▸ d.weight_dist.h_sigma),
    shape4_tile_mat _ _ _ _ (d.h_wB ▸ d.weight_dist.h_E_mumuT),
    shape4_tile_mat _ _ _ _ (d.h_wB ▸ d.weight_dist.h_E_Sigma_inv),
    shape2_smul_ones _ _ _, shape2_smul_ones _ _ _, shape2_smul_ones _ _ _,
    shape2_smul_ones _ _ _,
    shape3_tile_vec _ _ _ (m.h_wB ▸ m.weight_dist.h_mu),
    shape3_tile_vec _ _ _ (m.h_wB ▸ m.weight_dist.h_E_mu),
    shape4_tile_mat _ _ _ _ (m.h_wB ▸ m.weight_dist.h_sigma),
    shape4_tile_mat _ _ _ _ (m.h_wB ▸ m.weight_dist.h_E_mumuT),
    shape4_tile_mat _ _ _ _ (m.h_wB ▸ m.weight_dist.h_E_Sigma_inv),
    shape2_smul_ones _ _ _, ?_, ?_, ?_⟩
  · intro h
    unfold GaussianWeightedEigenmodel.P LogisticEigenmodel.P at h
    split at h
    · rw [Except.ok.injEq] at h
      subst h
      rw [← m.h_aN]
      exact shape2_range_map _ _
    · simp at h
  · intro h
    unfold GaussianWeightedEigenmodel.mf_expected_log_p
      LogisticEigenmodel.mf_expected_log_p at h
    split at h
    · rw [Except.ok.injEq] at h
      subst h
      rw [← m.h_aN]
      exact shape2_range_map _ _
    · simp at h
  · intro h
    unfold GaussianWeightedEigenmodel.mf_expected_log_notp
      LogisticEigenmodel.mf_expected_log_notp at h
    split at h
    · rw [Except.ok.injEq] at h
      subst h
      rw [← m.h_aN]
      exact shape2_range_map _ _
    · simp at h

/-- Witness for C4 at the sample distributions, with the eigenmodel's latent
state set so that its adjacency accessors return matrices. -/
theorem accessor_shape_contract_witness :
    shape3 sampleFixed.Mu 1 1 1 ∧
    shape2 (eigen_P_matrix 1 0 [0] [[0]]) 1 1 ∧
    shape2 (eigen_log_p_matrix 1 0 [0] [[0]]) 1 1 ∧
    shape2 (eigen_log_notp_matrix 1 0 [0] [[0]]) 1 1 := by
  have h := accessor_shape_contract sampleFixed sampleEigenSet
    (eigen_P_matrix 1 0 [0] [[0]]) (eigen_log_p_matrix 1 0 [0] [[0]])
    (eigen_log_notp_matrix 1 0 [0] [[0]])
  exact ⟨h.1, h.2.2.2.2.2.2.2.2.2.2.2.2.2.2.2.1 rfl,
    h.2.2.2.2.2.2.2.2.2.2.2.2.2.2.2.2.1 rfl,
    h.2.2.2.2.2.2.2.2.2.2.2.2.2.2.2.2.2 rfl⟩

/-- Claim C5: a freshly constructed eigenmodel distribution has unset
embeddings, bias and random effects, and `mf_expected_log_p()` on it fails
with `Uninitialized` (the spec's primary stated policy). -/
theorem eigen_fresh_uninitialized (N B D : ℤ) (p : ℚ)
    (m : GaussianWeightedEigenmodel)
    (hmk : GaussianWeightedEigenmodel.make N B D p = .ok m) :
    m.adjacency_dist.F = none ∧ m.adjacency_dist.mu0 = none ∧
    m.adjacency_dist.lmbda = none ∧
    m.mf_expected_log_p = .error .Uninitialized := by
  unfold GaussianWeightedEigenmodel.make at hmk
  split_ifs at hmk with h1
  rw [Except.ok.injEq] at hmk
  subst hmk
  exact ⟨rfl, rfl, rfl, rfl⟩

/-- Witness for C5 at N = B = D = 1, default p. -/
theorem eigen_fresh_uninitialized_witness :
    sampleEigen.adjacency_dist.F = none ∧
    sampleEigen.mf_expected_log_p = .error .Uninitialized := by
  have h := eigen_fresh_uninitialized 1 1 1 (1/2) sampleEigen make_eigen_default
  exact ⟨h.1, h.2.2.2⟩

/-- Claim C6: constructing the fixed-sparsity distribution with an edge
probability p outside the open interval (0,1) fails synchronously with
`InvalidParameter`: the constructor returns the error, not a clamped
distribution. -/
theorem fixed_invalid_p_rejected (N B : ℤ) (p : ℚ) (hN : 0 < N) (hB : 0 < B)
    (hp : ¬(0 < p ∧ p < 1)) :
    GaussianErdosRenyiFixedSparsity.make N B p = .error .InvalidParameter := by
  unfold GaussianErdosRenyiFixedSparsity.make
  rw [if_pos ⟨hN, hB⟩, if_neg hp]

/-- Witness for C6 at N = B = 1, p = 2. -/
theorem fixed_invalid_p_rejected_witness :
    GaussianErdosRenyiFixedSparsity.make 1 1 2 = .error .InvalidParameter :=
  fixed_invalid_p_rejected 1 1 2 (by decide) (by decide) (by decide)

/-- Claim C7: construction of either variant validates N > 0 and B > 0 (and
D > 0 for the eigenmodel) and fails with `InvalidDimension` exactly when one
of these dimensions is not positive. -/
theorem construction_validates_dimensions (N B D : ℤ) (p : ℚ) :
    (¬(0 < N ∧ 0 < B) →
      GaussianErdosRenyiFixedSparsity.make N B p = .error .InvalidDimension) ∧
    (0 < N ∧ 0 < B →
      GaussianErdosRenyiFixedSparsity.make N B p ≠ .error .InvalidDimension) ∧
    (¬(0 < N ∧ 0 < B ∧ 0 < D) →
      GaussianWeightedEigenmodel.make N B D p = .error .InvalidDimension) ∧
    (0 < N ∧ 0 < B ∧ 0 < D →
      GaussianWeightedEigenmodel.make N B D p ≠ .error .InvalidDimension) := by
  refine ⟨?_, ?_, ?_, ?_⟩
  · intro h
    unfold GaussianErdosRenyiFixedSparsity.make
    rw [if_neg h]
  · intro h
    unfold GaussianErdosRenyiFixedSparsity.make
    rw [if_pos h]
    split <;> simp
  · intro h
    unfold GaussianWeightedEigenmodel.make
    rw [if_neg h]
  · intro h
    unfold GaussianWeightedEigenmodel.make
    rw [if_pos h]
    simp

/-- Witness for C7 at N = 0 (not positive), B = D = 1. -/
theorem construction_validates_dimensions_witness :
    GaussianErdosRenyiFixedSparsity.make 0 1 (1/2) = .error .InvalidDimension ∧
    GaussianWeightedEigenmodel.make 0 1 1 (1/2) = .error .InvalidDimension := by
  have h := construction_validates_dimensions 0 1 1 (1/2)
  exact ⟨h.1 (by decide), h.2.2.1 (by decide)⟩

/-- Claim C8: every read accessor (`P`, `Mu`, `Sigma` and the six
`mf_expected_*` methods), run as a state transformer, leaves the
distribution's state — including both sub-processes — unchanged, for both
variants. -/
theorem read_accessors_pure
    (d : GaussianErdosRenyiFixedSparsity) (m : GaussianWeightedEigenmodel)
    (a : Accessor) :
    (d.read a).2 = d ∧ (m.read a).2 = m := by
  cases a <;> exact ⟨rfl, rfl⟩

/-- Claim C9: every read accessor is deterministic in the state: running the
same accessor twice in sequence, with no intervening mutation, returns equal
results, for both variants. -/
theorem read_accessors_deterministic
    (d : GaussianErdosRenyiFixedSparsity) (m : GaussianWeightedEigenmodel)
    (a : Accessor) :
    ((d.read a).2.read a).1 = (d.read a).1 ∧
    ((m.read a).2.read a).1 = (m.read a).1 := by
  cases a <;> exact ⟨rfl, rfl⟩

/-- Claim C10: construction supplies defaults the spec does not state:
omitting p constructs either variant with p = 0.5, and omitting D constructs
the eigenmodel with latent dimensionality D = 2. -/
theorem constructor_defaults (N B : ℤ)
    (d : GaussianErdosRenyiFixedSparsity) (m : GaussianWeightedEigenmodel)
    (hd : GaussianErdosRenyiFixedSparsity.make N B = .ok d)
    (hm : GaussianWeightedEigenmodel.make N B = .ok m) :
    d.p = ((1:ℝ)/2) ∧ d.adjacency_dist.p = ((1:ℝ)/2) ∧
    m.D = 2 ∧ m.adjacency_dist.p = 1/2 := by
  unfold GaussianErdosRenyiFixedSparsity.make at hd
  unfold GaussianWeightedEigenmodel.make at hm
  split_ifs at hd with h1 h2
  split_ifs at hm with h3
  rw [Except.ok.injEq] at hd hm
  subst hd
  subst hm
  refine ⟨by push_cast; norm_num, by push_cast; norm_num, rfl, rfl⟩

/-- Witness for C10 at N = B = 1 with all defaults omitted. -/
theorem constructor_defaults_witness :
    sampleFixed.p = ((1:ℝ)/2) ∧ sampleEigenDefaults.D = 2 := by
  have h := constructor_defaults 1 1 sampleFixed sampleEigenDefaults
    make_fixed_default rfl
  exact ⟨h.1, h.2.2.1⟩
